import Mathlib

/-!
Verification of the BYD Battery-Box cell monitor (`byd_lvs_monitor.py`).

The development shallowly embeds the pure decoding logic of the monitor and the
stateful module-query protocol.  Sixteen-bit registers are modelled as `Nat`
values, physical quantities scaled by decimal factors as `ℚ`, fallible
transport calls as `Option`-valued oracles, and a failed module query as an
`Except` error.  Floating-point scale factors in the Python source
(`0.001`, `0.1`, `0.5`) are exact decimal fractions, so `ℚ` represents them
without loss.
-/

-- ── Protocol constants (`byd_lvs_monitor.py`, module header) ──

def CELLS_PER_MODULE : Nat := 16
def TEMPS_PER_MODULE : Nat := 8

/-- Seconds to wait for the 0x8801 ready response (`POLL_TIMEOUT = 10`). -/
def POLL_TIMEOUT : ℚ := 10

/-- Seconds between status polls (`POLL_INTERVAL = 0.5`). -/
def POLL_INTERVAL : ℚ := 0.5

def MODULE_USABLE_KWH : ℚ := 3.6

def RESP_BMS_READY : Nat := 0x8801
def CMD_BMS_READ : Nat := 0x8100
def BMS_DATA_CHUNKS : Nat := 4
def BMS_CHUNK_SIZE : Nat := 65

/-- Warranty table `WARRANTY_MWH`: modules-per-tower count to minimum
guaranteed lifetime discharge throughput in MWh.  The Python dict lookup
`WARRANTY_MWH.get(n, 0)` is modelled as an `Option` with `Option.getD 0`. -/
def WARRANTY_MWH (n : Nat) : Option ℚ :=
  if n = 1 then some 11.88
  else if n = 2 then some 23.76
  else if n = 3 then some 35.64
  else if n = 4 then some 47.53
  else if n = 5 then some 59.41
  else if n = 6 then some 71.29
  else none

-- ── Primitive decoders ──

/-- Python `signed16(val)`: convert unsigned 16-bit to signed. -/
def signed16 (val : Nat) : Int :=
  if val < 32768 then (val : Int) else (val : Int) - 65536

/-- Signed-byte reinterpretation used for temperatures
(`if t > 127: t -= 256`). -/
def signed8 (b : Nat) : Int :=
  if b > 127 then (b : Int) - 256 else (b : Int)

/-- Python `detect_modules`: auto-detect the number of BMS modules from config
register 0x0010.  The argument is the outcome of the single transport read
(`none` models `result.isError()`). -/
def detect_modules (read : Option Nat) : Option Nat :=
  match read with
  | none => none
  | some v =>
    let module_count := v &&& 0x0F
    if module_count > 0 then some module_count else none

-- ── Derived analytics on energies (`print_energy_overview` / `output_json`) ──

/-- Round-trip efficiency `(dch / ch * 100) if ch > 0 else 0`. -/
def round_trip_eff (ch dch : ℚ) : ℚ :=
  if ch > 0 then dch / ch * 100 else 0

/-- Python `WARRANTY_MWH.get(mods_per_tower, 0) * 1000` (kWh per tower). -/
def warranty_per_tower_kwh (mods_per_tower : Nat) : ℚ :=
  ((WARRANTY_MWH mods_per_tower).getD 0) * 1000

/-- Per-module warranty allotment from `output_json`:
`warranty_per_tower_kwh / mods_per_tower if warranty_per_tower_kwh > 0 and
mods_per_tower > 0 else 0`. -/
def mod_warranty_kwh (mods_per_tower : Nat) : ℚ :=
  if 0 < warranty_per_tower_kwh mods_per_tower ∧ 0 < mods_per_tower then
    warranty_per_tower_kwh mods_per_tower / (mods_per_tower : ℚ)
  else 0

/-- Python `warr_pct = (dch / mod_warranty_kwh * 100) if mod_warranty_kwh > 0 else 0`. -/
def warranty_used_pct (dch : ℚ) (mods_per_tower : Nat) : ℚ :=
  if 0 < mod_warranty_kwh mods_per_tower then
    dch / mod_warranty_kwh mods_per_tower * 100
  else 0

-- ── Frame decoding (`query_module`, decode section) ──

/-- Trailing-zero strip on the temperature list:
`while temps and temps[-1] == 0: temps.pop()`.  Popping zeros from the end
is dropping the zero prefix of the reversed list. -/
def trimTrailingZeros (l : List Int) : List Int :=
  (l.reverse.dropWhile (fun t => t == 0)).reverse

/-- Raw 8-entry temperature sequence before trimming: registers 180..183,
each split into two signed bytes, high byte first, guarded by
`reg_pos < len(r)`. -/
def rawTemps (r : List Nat) : List Int :=
  (List.range 4).foldl
    (fun acc i =>
      if 180 + i < r.length then
        let val := r.getD (180 + i) 0
        acc ++ [signed8 ((val >>> 8) &&& 0xFF), signed8 (val &&& 0xFF)]
      else acc)
    []

/-- One byte of the ASCII pair-packed serial: kept only when printable
(`32 <= ch < 127`), otherwise omitted. -/
def printableChar (b : Nat) : List Char :=
  if 32 ≤ b ∧ b < 127 then [Char.ofNat b] else []

/-- Characters of the module serial number from registers 34..45
(high byte then low byte of each word, guarded by `i < len(r)`). -/
def serialChars (r : List Nat) : List Char :=
  (List.range 12).foldl
    (fun acc k =>
      let i := 34 + k
      if i < r.length then
        acc ++ printableChar ((r.getD i 0 >>> 8) &&& 0xFF)
            ++ printableChar (r.getD i 0 &&& 0xFF)
      else acc)
    []

/-- Python rstrip of the pad characters x, space and NUL: drop the
trailing run of pad characters. -/
def rstripPad (s : List Char) : List Char :=
  (s.reverse.dropWhile (fun c => c == 'x' || c == ' ' || c == Char.ofNat 0)).reverse

/-- Stripped serial, with an all-stripped result reported as absent. -/
def decodeSerial (r : List Nat) : Option String :=
  let s := rstripPad (serialChars r)
  if s.isEmpty then none else some (String.mk s)

/-- Rounding to one decimal (`round(x, 1)`).  Python rounds ties to even
while `round` rounds half up; the two agree except at exact ties, which no
claim in this development depends on. -/
def round1 (q : ℚ) : ℚ := (round (q * 10) : ℚ) / 10

/-- One decoded module record (the dict built in `query_module`). -/
structure ModuleData where
  bms_id : Nat
  payload_size : Nat
  max_cell_v : Int
  min_cell_v : Int
  max_v_cell : Nat
  max_v_module : Nat
  max_temp : Int
  min_temp : Int
  max_t_cell : Nat
  max_t_module : Nat
  balancing_raw : Nat
  balancing : List Nat
  balancing_active : Nat
  charge_energy_kwh : ℚ
  discharge_energy_kwh : ℚ
  bat_voltage : ℚ
  output_voltage : ℚ
  soc : ℚ
  soh : Int
  current : ℚ
  warnings1 : Nat
  warnings2 : Nat
  errors : Nat
  serial : Option String
  cell_voltages : List Int
  cell_temps : List Int
  power : ℚ

/-- Decode of the assembled 260-word buffer (`query_module`, step 4).
Register words are `Nat`; `r.getD i 0` is `r[i]` (the buffer is only decoded
at its full 260-word length, where every accessed index is in range). -/
def decode (bms_id : Nat) (r : List Nat) : ModuleData :=
  let bal_flags := r.getD 7 0
  let balancing := (List.range CELLS_PER_MODULE).map (fun bit => (bal_flags >>> bit) &&& 1)
  let current : ℚ := -((signed16 (r.getD 27 0) : ℚ) * 0.1)
  let output_voltage : ℚ := (signed16 (r.getD 24 0) : ℚ) * 0.1
  { bms_id := bms_id
    payload_size := r.getD 0 0
    max_cell_v := signed16 (r.getD 1 0)
    min_cell_v := signed16 (r.getD 2 0)
    max_v_cell := (r.getD 3 0 >>> 8) &&& 0xFF
    max_v_module := r.getD 3 0 &&& 0xFF
    max_temp := signed16 (r.getD 4 0)
    min_temp := signed16 (r.getD 5 0)
    max_t_cell := (r.getD 6 0 >>> 8) &&& 0xFF
    max_t_module := r.getD 6 0 &&& 0xFF
    balancing_raw := bal_flags
    balancing := balancing
    balancing_active := balancing.sum
    charge_energy_kwh := ((r.getD 16 0 * 65536 + r.getD 15 0 : Nat) : ℚ) * 0.001
    discharge_energy_kwh := ((r.getD 18 0 * 65536 + r.getD 17 0 : Nat) : ℚ) * 0.001
    bat_voltage := (signed16 (r.getD 21 0) : ℚ) * 0.1
    output_voltage := output_voltage
    soc := (signed16 (r.getD 25 0) : ℚ) * 0.1
    soh := signed16 (r.getD 26 0)
    current := current
    warnings1 := if 28 < r.length then r.getD 28 0 else 0
    warnings2 := if 29 < r.length then r.getD 29 0 else 0
    errors := if 48 < r.length then r.getD 48 0 else 0
    serial := decodeSerial r
    cell_voltages := (List.range CELLS_PER_MODULE).map (fun i => signed16 (r.getD (49 + i) 0))
    cell_temps := trimTrailingZeros (rawTemps r)
    power := round1 (current * output_voltage) }

-- ── Module query orchestration (`query_module`) ──

/-- Failure taxonomy of a module query (spec section 7; the Python code
returns `None` at the corresponding three return sites). -/
inductive QueryFailure where
  | WriteFailed
  | Timeout
  | ShortFrame
deriving DecidableEq

/-- Transport oracle for one module query: whether the initial
`write_registers(0x0550, [bms_id, 0x8100])` succeeds, the outcome of the
k-th status read of register 0x0551, and the outcome of the c-th 65-register
chunk read from 0x0558 (`none` models `result.isError()`). -/
structure Transport where
  writeOk : Bool
  pollRead : Nat → Option Nat
  chunkRead : Nat → Option (List Nat)

/-- Status-poll loop of `query_module`, step 2.  Attempt `k` is issued while
`elapsed = k * POLL_INTERVAL` still satisfies `elapsed < POLL_TIMEOUT`
(Python increments `elapsed` by `POLL_INTERVAL` before each read, so the
guard is checked against the elapsed time before the attempt).  Returns
whether 0x8801 was observed and how many status reads were issued.  `fuel`
is an artifact of the embedding; the loop itself is bounded by the
wall-clock guard, and any `fuel > POLL_TIMEOUT / POLL_INTERVAL` gives the
same result. -/
def pollGo (read : Nat → Option Nat) : Nat → Nat → Bool × Nat
  | _, 0 => (false, 0)
  | k, fuel + 1 =>
    if (k : ℚ) * POLL_INTERVAL < POLL_TIMEOUT then
      match read k with
      | some v =>
        if v = RESP_BMS_READY then (true, 1)
        else
          let rest := pollGo read (k + 1) fuel
          (rest.1, rest.2 + 1)
      | none =>
        let rest := pollGo read (k + 1) fuel
        (rest.1, rest.2 + 1)
    else (false, 0)

/-- Fuel that lets the guard itself terminate the loop (21 > 10 / 0.5). -/
def pollFuel : Nat := 21

/-- Whether the poll loop observed the ready sentinel. -/
def pollReady (read : Nat → Option Nat) : Bool := (pollGo read 0 pollFuel).1

/-- Number of single-register status reads issued by the poll loop. -/
def pollReads (read : Nat → Option Nat) : Nat := (pollGo read 0 pollFuel).2

/-- One chunk of `query_module`, step 3: on transport error the 65 chunk
positions are zero-filled (`r.extend([0] * BMS_CHUNK_SIZE)`), otherwise the
read registers are appended. -/
def chunkWords (t : Transport) (c : Nat) : List Nat :=
  match t.chunkRead c with
  | none => List.replicate BMS_CHUNK_SIZE 0
  | some regs => regs

/-- Assembled FIFO buffer: 4 chunks concatenated in order. -/
def fetch_buffer (t : Transport) : List Nat :=
  (List.range BMS_DATA_CHUNKS).foldl (fun acc c => acc ++ chunkWords t c) []

/-- Python `query_module(client, bms_id)`: write command, poll for 0x8801, fetch
4 chunks, decode.  Each `return None` site of the Python function is mapped
to its failure reason from spec section 7. -/
def query_module (t : Transport) (bms_id : Nat) : Except QueryFailure ModuleData :=
  if t.writeOk then
    if pollReady t.pollRead then
      let r := fetch_buffer t
      if r.length < BMS_DATA_CHUNKS * BMS_CHUNK_SIZE then .error .ShortFrame
      else .ok (decode bms_id r)
    else .error .Timeout
  else .error .WriteFailed

/-- Session loop of `main`: for each `bms_id` in `1..num_modules` query the
module; successful records are collected (the Python `all_data` dict keyed
by `bms_id`, in id order), failures are skipped. -/
def run_session (T : Nat → Transport) (num_modules : Nat) : List (Nat × ModuleData) :=
  (List.range num_modules).filterMap
    (fun i =>
      match query_module (T (i + 1)) (i + 1) with
      | .ok d => some (i + 1, d)
      | .error _ => none)

-- ── Outlier detection (derived analytics) ──

/-- Modelled from the spec: fixed voltage outlier threshold (5 mV).  The
distinct-gap outlier analytics of spec section 4.4 is repository code not
among the provided sources (`print_cell_table` in the provided file only
colours extremes); the definitions below follow the words of the spec. -/
def VOLTAGE_OUTLIER_THRESHOLD : Int := 5

/-- Modelled from the spec: fixed temperature outlier threshold (2 °C). -/
def TEMP_OUTLIER_THRESHOLD : Int := 2

/-- Modelled from the spec: the next-distinct value above `m` in `xs`, that
is the successor of `m` in the sorted list of distinct values of `xs`. -/
def nextDistinct (xs : List Int) (m : Int) : Option Int :=
  (xs.filter (fun v => m < v)).min?

/-- Modelled from the spec: the next-distinct value below `m` in `xs`, that
is the predecessor of `m` in the sorted list of distinct values of `xs`. -/
def prevDistinct (xs : List Int) (m : Int) : Option Int :=
  (xs.filter (fun v => v < m)).max?

/-- Modelled from the spec: the minimum value is flagged an outlier only if
the gap to the next-distinct value is at least the threshold. -/
def minOutlier (thr : Int) (xs : List Int) : Bool :=
  match xs.min? with
  | none => false
  | some m =>
    match nextDistinct xs m with
    | none => false
    | some n => decide (thr ≤ n - m)

/-- Modelled from the spec: symmetrically, the maximum value is flagged
against the second-highest distinct value. -/
def maxOutlier (thr : Int) (xs : List Int) : Bool :=
  match xs.max? with
  | none => false
  | some m =>
    match prevDistinct xs m with
    | none => false
    | some p => decide (thr ≤ m - p)

-- ── Helper lemmas ──

lemma trimTrailingZeros_length_le (l : List Int) :
    (trimTrailingZeros l).length ≤ l.length := by
  unfold trimTrailingZeros
  rw [List.length_reverse]
  calc (l.reverse.dropWhile (fun t => t == 0)).length
      ≤ l.reverse.length := (List.dropWhile_sublist _).length_le
    _ = l.length := List.length_reverse _

lemma dropWhile_head_not (p : Int → Bool) :
    ∀ (l : List Int) (a : Int) (t : List Int), l.dropWhile p = a :: t → p a = false
  | [], a, t, h => by simp [List.dropWhile] at h
  | x :: xs, a, t, h => by
    rw [List.dropWhile_cons] at h
    by_cases hx : p x
    · rw [if_pos hx] at h
      exact dropWhile_head_not p xs a t h
    · rw [if_neg hx] at h
      cases h
      exact Bool.not_eq_true _ ▸ (by simpa using hx)

-- ── Claim theorems ──

/-- Claim C8: for every unsigned 16-bit input `v`, `signed16` returns `v`
when `v < 32768` and `v - 65536` otherwise, and re-encoding the signed
result modulo 65536 recovers `v`. -/
theorem signed16_decode_roundtrip (v : Nat) (hv : v ≤ 65535) :
    (v < 32768 → signed16 v = (v : Int))
    ∧ (32768 ≤ v → signed16 v = (v : Int) - 65536)
    ∧ signed16 v % 65536 = (v : Int) := by
  unfold signed16
  refine ⟨fun h => by rw [if_pos h], fun h => by rw [if_neg (by omega)], ?_⟩
  split
  · omega
  · omega

theorem signed16_decode_roundtrip_witness :
    ((40000 < 32768 → signed16 40000 = (40000 : Int))
    ∧ (32768 ≤ 40000 → signed16 40000 = (40000 : Int) - 65536)
    ∧ signed16 40000 % 65536 = (40000 : Int)) :=
  signed16_decode_roundtrip 40000 (by decide)

/-- Claim C10: module auto-detection returns either a count in `1..15` or
an absent result, never `0` and never above `15`: it keeps only the low
4 bits of the configuration register, and a successful read whose low
nibble is `0` is reported as absent. -/
theorem detect_modules_range :
    (∀ (read : Option Nat) (n : Nat), detect_modules read = some n →
      1 ≤ n ∧ n ≤ 15 ∧ ∃ v, read = some v ∧ n = v &&& 0x0F)
    ∧ (∀ v : Nat, v &&& 0x0F = 0 → detect_modules (some v) = none) := by
  constructor
  · intro read n h
    match read with
    | none => simp [detect_modules] at h
    | some v =>
      simp only [detect_modules] at h
      split at h
      · cases h
        refine ⟨by omega, Nat.and_le_right, v, rfl, rfl⟩
      · cases h
  · intro v hv
    simp [detect_modules, hv]

theorem detect_modules_range_witness :
    (1 ≤ 2 ∧ 2 ≤ 15 ∧ ∃ v, (some 0x12 : Option Nat) = some v ∧ 2 = v &&& 0x0F) :=
  detect_modules_range.1 (some 0x12) 2 (by decide)

/-- Claim C6: for every module record, round-trip efficiency equals
`discharge_energy_kwh / charge_energy_kwh * 100` when charge energy is
positive, and is exactly `0` when charge energy is `0` (division is total
in the embedding; the code never evaluates the quotient in that case). -/
theorem round_trip_eff_spec (d : ModuleData) :
    (0 < d.charge_energy_kwh →
      round_trip_eff d.charge_energy_kwh d.discharge_energy_kwh
        = d.discharge_energy_kwh / d.charge_energy_kwh * 100)
    ∧ (d.charge_energy_kwh = 0 →
      round_trip_eff d.charge_energy_kwh d.discharge_energy_kwh = 0) := by
  constructor
  · intro h
    rw [round_trip_eff, if_pos h]
  · intro h
    rw [round_trip_eff, h]
    norm_num

theorem round_trip_eff_spec_witness :
    round_trip_eff (decode 1 (List.replicate 260 0)).charge_energy_kwh
        (decode 1 (List.replicate 260 0)).discharge_energy_kwh = 0
    ∧ round_trip_eff (decode 1 (List.replicate 260 1)).charge_energy_kwh
        (decode 1 (List.replicate 260 1)).discharge_energy_kwh
      = (decode 1 (List.replicate 260 1)).discharge_energy_kwh
        / (decode 1 (List.replicate 260 1)).charge_energy_kwh * 100 :=
  ⟨(round_trip_eff_spec _).2 (by norm_num [decode]), (round_trip_eff_spec _).1 (by norm_num [decode])⟩

/-- Claim C5: the per-module warranty allotment equals the lookup table
MWh value for the modules-per-tower count (keys 1..6) converted to kWh and
divided by modules-per-tower; the consumed percentage is
`discharge_energy_kwh / allotment_kwh * 100`; with no table entry the
consumed percentage is reported as `0`. -/
theorem warranty_allotment_spec (dch : ℚ) (mpt : Nat) :
    (1 ≤ mpt → mpt ≤ 6 →
      mod_warranty_kwh mpt = ((WARRANTY_MWH mpt).getD 0) * 1000 / (mpt : ℚ)
      ∧ warranty_used_pct dch mpt
          = dch / (((WARRANTY_MWH mpt).getD 0) * 1000 / (mpt : ℚ)) * 100)
    ∧ (WARRANTY_MWH mpt = none → warranty_used_pct dch mpt = 0) := by
  constructor
  · intro h1 h6
    interval_cases mpt <;>
      norm_num [mod_warranty_kwh, warranty_used_pct, warranty_per_tower_kwh, WARRANTY_MWH]
  · intro hn
    simp only [warranty_used_pct, mod_warranty_kwh, warranty_per_tower_kwh, hn,
      Option.getD_none, zero_mul]
    norm_num

theorem warranty_allotment_spec_witness :
    (mod_warranty_kwh 4 = ((WARRANTY_MWH 4).getD 0) * 1000 / (4 : ℚ)
    ∧ warranty_used_pct 7200 4
        = 7200 / (((WARRANTY_MWH 4).getD 0) * 1000 / (4 : ℚ)) * 100) :=
  (warranty_allotment_spec 7200 4).1 (by decide) (by decide)

/-- Claim C2: for every 260-word input buffer, the decoded record fields
`cell_voltages` and `balancing` lists have exactly 16 entries and
`cell_temps` has between 0 and 8 entries after trailing-zero trimming. -/
theorem decode_lengths (bms_id : Nat) (r : List Nat) (h : r.length = 260) :
    (decode bms_id r).cell_voltages.length = CELLS_PER_MODULE
    ∧ (decode bms_id r).balancing.length = CELLS_PER_MODULE
    ∧ (decode bms_id r).cell_temps.length ≤ TEMPS_PER_MODULE := by
  refine ⟨?_, ?_, ?_⟩
  · simp [decode, CELLS_PER_MODULE]
  · simp [decode, CELLS_PER_MODULE]
  · have h8 : (rawTemps r).length = 8 := by
      unfold rawTemps
      rw [show List.range 4 = [0, 1, 2, 3] from rfl]
      simp [h]
    have : (decode bms_id r).cell_temps = trimTrailingZeros (rawTemps r) := by
      simp [decode]
    rw [this, TEMPS_PER_MODULE, ← h8]
    exact trimTrailingZeros_length_le _

theorem decode_lengths_witness :
    ((decode 1 (List.replicate 260 0)).cell_voltages.length = CELLS_PER_MODULE
    ∧ (decode 1 (List.replicate 260 0)).balancing.length = CELLS_PER_MODULE
    ∧ (decode 1 (List.replicate 260 0)).cell_temps.length ≤ TEMPS_PER_MODULE) :=
  decode_lengths 1 (List.replicate 260 0) (by rw [List.length_replicate])

/-- Claim C7: trailing-zero trimming removes exactly the maximal contiguous
suffix of zero entries — the input is the trimmed list followed by a block
of zeros, the trimmed list (being an unmodified prefix) keeps every leading
or interior zero, and it never ends in a zero — and the raw decoded
sequence `[5, -3, 0, 7, 0, 0, 0, 0]` trims to `[5, -3, 0, 7]`. -/
theorem trimTrailingZeros_spec :
    (∀ l : List Int, ∃ n, l = trimTrailingZeros l ++ List.replicate n 0)
    ∧ (∀ l : List Int, trimTrailingZeros l = []
        ∨ ∃ a, (trimTrailingZeros l).getLast? = some a ∧ a ≠ 0)
    ∧ trimTrailingZeros [5, -3, 0, 7, 0, 0, 0, 0] = [5, -3, 0, 7] := by
  refine ⟨?_, ?_, by decide⟩
  · intro l
    refine ⟨(l.reverse.takeWhile (fun t : Int => t == 0)).length, ?_⟩
    conv_lhs => rw [← List.reverse_reverse l,
      ← List.takeWhile_append_dropWhile (p := fun t : Int => t == 0) (l := l.reverse)]
    rw [List.reverse_append]
    unfold trimTrailingZeros
    congr 1
    rw [List.eq_replicate_iff]
    refine ⟨by rw [List.length_reverse], ?_⟩
    intro b hb
    rw [List.mem_reverse] at hb
    simpa using List.mem_takeWhile_imp hb
  · intro l
    unfold trimTrailingZeros
    cases hd : l.reverse.dropWhile (fun t : Int => t == 0) with
    | nil => left; rfl
    | cons a t =>
      right
      refine ⟨a, ?_, ?_⟩
      · rw [List.getLast?_reverse]
        rfl
      · have := dropWhile_head_not (fun t : Int => t == 0) l.reverse a t hd
        simpa using this

-- ── Poll loop lemmas ──

lemma poll_guard_iff (k : Nat) : ((k : ℚ) * POLL_INTERVAL < POLL_TIMEOUT) ↔ k < 20 := by
  unfold POLL_INTERVAL POLL_TIMEOUT
  constructor
  · intro h
    by_contra hk
    push_neg at hk
    have h20 : (20 : ℚ) ≤ (k : ℚ) := by exact_mod_cast hk
    norm_num at h
    linarith
  · intro h
    have h20 : (k : ℚ) < 20 := by exact_mod_cast h
    norm_num
    linarith

lemma pollGo_ready_iff (read : Nat → Option Nat) :
    ∀ (fuel k : Nat), 20 ≤ k + fuel →
      ((pollGo read k fuel).1 = true
        ↔ ∃ i, k ≤ i ∧ i < 20 ∧ read i = some RESP_BMS_READY) := by
  intro fuel
  induction fuel with
  | zero =>
    intro k hk
    simp only [pollGo]
    constructor
    · intro h
      cases h
    · rintro ⟨i, h1, h2, _⟩
      omega
  | succ fuel ih =>
    intro k hk
    rw [pollGo]
    by_cases hguard : k < 20
    · rw [if_pos ((poll_guard_iff k).mpr hguard)]
      cases hr : read k with
      | some v =>
        dsimp only
        by_cases hv : v = RESP_BMS_READY
        · subst hv
          rw [if_pos rfl]
          simp only [true_iff]
          exact ⟨k, le_refl k, hguard, hr⟩
        · rw [if_neg hv]
          simp only []
          rw [ih (k + 1) (by omega)]
          constructor
          · rintro ⟨i, h1, h2, h3⟩
            exact ⟨i, by omega, h2, h3⟩
          · rintro ⟨i, h1, h2, h3⟩
            refine ⟨i, ?_, h2, h3⟩
            rcases Nat.eq_or_lt_of_le h1 with heq | hlt
            · exfalso
              rw [← heq, hr] at h3
              exact hv (Option.some.inj h3)
            · omega
      | none =>
        dsimp only
        rw [ih (k + 1) (by omega)]
        constructor
        · rintro ⟨i, h1, h2, h3⟩
          exact ⟨i, by omega, h2, h3⟩
        · rintro ⟨i, h1, h2, h3⟩
          refine ⟨i, ?_, h2, h3⟩
          rcases Nat.eq_or_lt_of_le h1 with heq | hlt
          · exfalso
            rw [← heq, hr] at h3
            cases h3
          · omega
    · rw [if_neg (by rw [poll_guard_iff]; omega)]
      constructor
      · intro h
        cases h
      · rintro ⟨i, h1, h2, _⟩
        omega

lemma pollReady_iff (read : Nat → Option Nat) :
    pollReady read = true ↔ ∃ i, i < 20 ∧ read i = some RESP_BMS_READY := by
  unfold pollReady pollFuel
  rw [pollGo_ready_iff read 21 0 (by omega)]
  constructor
  · rintro ⟨i, _, h2, h3⟩
    exact ⟨i, h2, h3⟩
  · rintro ⟨i, h2, h3⟩
    exact ⟨i, Nat.zero_le i, h2, h3⟩

lemma pollGo_reads_le (read : Nat → Option Nat) :
    ∀ (fuel k : Nat), (pollGo read k fuel).2 ≤ 20 - k := by
  intro fuel
  induction fuel with
  | zero =>
    intro k
    simp [pollGo]
  | succ fuel ih =>
    intro k
    rw [pollGo]
    by_cases hguard : k < 20
    · rw [if_pos ((poll_guard_iff k).mpr hguard)]
      cases read k with
      | some v =>
        dsimp only
        by_cases hv : v = RESP_BMS_READY
        · rw [if_pos hv]
          show 1 ≤ 20 - k
          omega
        · rw [if_neg hv]
          have := ih (k + 1)
          omega
      | none =>
        dsimp only
        have := ih (k + 1)
        omega
    · rw [if_neg (by rw [poll_guard_iff]; omega)]
      simp

lemma query_module_not_ok (t : Transport) (bms_id : Nat)
    (h : ∀ i, i < 20 → t.pollRead i ≠ some RESP_BMS_READY) :
    ∀ d, query_module t bms_id ≠ .ok d := by
  intro d
  have hpoll : pollReady t.pollRead = false := by
    rw [Bool.eq_false_iff]
    intro hready
    obtain ⟨i, hi, hr⟩ := (pollReady_iff t.pollRead).mp hready
    exact h i hi hr
  unfold query_module
  cases hw : t.writeOk with
  | false => simp
  | true => simp [hpoll]

/-- Claim C3: the status poll accepts only an exact match of the ready
sentinel 0x8801 — it succeeds precisely when some read within the 20-attempt
window returns it, any other value or transport error continuing the loop —
a query whose poll never sees the sentinel fails with `Timeout` and yields
no telemetry record, and subsequent module ids are still attempted. -/
theorem poll_timeout_spec :
    (∀ read : Nat → Option Nat,
      pollReady read = true ↔ ∃ i, i < 20 ∧ read i = some RESP_BMS_READY)
    ∧ (∀ (t : Transport) (bms_id : Nat),
        (∀ i, i < 20 → t.pollRead i ≠ some RESP_BMS_READY) → t.writeOk = true →
        query_module t bms_id = .error .Timeout)
    ∧ (∀ (T : Nat → Transport) (num_modules j : Nat),
        (∀ i, i < 20 → (T j).pollRead i ≠ some RESP_BMS_READY) →
        (∀ p, p ∈ run_session T num_modules → p.1 ≠ j)
        ∧ (∀ m d, 1 ≤ m → m ≤ num_modules → query_module (T m) m = .ok d →
            (m, d) ∈ run_session T num_modules)) := by
  refine ⟨pollReady_iff, ?_, ?_⟩
  · intro t bms_id h hw
    have hpoll : pollReady t.pollRead = false := by
      rw [Bool.eq_false_iff]
      intro hready
      obtain ⟨i, hi, hr⟩ := (pollReady_iff t.pollRead).mp hready
      exact h i hi hr
    unfold query_module
    simp [hw, hpoll]
  · intro T num_modules j h
    constructor
    · intro p hp
      unfold run_session at hp
      rw [List.mem_filterMap] at hp
      obtain ⟨i, _, hfi⟩ := hp
      cases hq : query_module (T (i + 1)) (i + 1) with
      | ok d =>
        rw [hq] at hfi
        cases hfi
        intro hj
        exact query_module_not_ok (T j) j h d (by rw [← hj]; exact hq)
      | error e =>
        rw [hq] at hfi
        cases hfi
    · intro m d h1 hm hq
      unfold run_session
      rw [List.mem_filterMap]
      refine ⟨m - 1, List.mem_range.mpr (by omega), ?_⟩
      rw [Nat.sub_add_cancel h1, hq]

/-- Concrete transport whose status reads never return the sentinel. -/
def tStuck : Transport :=
  { writeOk := true
    pollRead := fun _ => some 0
    chunkRead := fun _ => some (List.replicate 65 0) }

theorem poll_timeout_spec_witness :
    query_module tStuck 1 = .error .Timeout :=
  poll_timeout_spec.2.1 tStuck 1 (fun i _ => by simp [tStuck, RESP_BMS_READY]) rfl

/-- Claim C9: the status-poll loop executes at most
`POLL_TIMEOUT / POLL_INTERVAL = 20` iterations, each issuing exactly one
single-register status read (one read is counted per iteration of
`pollGo`), so the bounded loop — and with it the module query — terminates
whenever the individual transport calls do. -/
theorem poll_bounded_iterations :
    POLL_TIMEOUT / POLL_INTERVAL = 20
    ∧ ∀ read : Nat → Option Nat, pollReads read ≤ 20 := by
  constructor
  · unfold POLL_TIMEOUT POLL_INTERVAL
    norm_num
  · intro read
    have := pollGo_reads_le read pollFuel 0
    simpa [pollReads] using this

theorem poll_bounded_iterations_witness :
    pollReads (fun _ => none) ≤ 20 :=
  poll_bounded_iterations.2 (fun _ => none)

/-- Claim C4: a transport error on any chunk read does not abort the fetch —
that chunk contributes 65 zeros and the loop proceeds — so whenever each
successful chunk read returns its requested 65 registers the assembled
buffer has exactly 260 words and the `ShortFrame` branch of the query is
unreachable. -/
theorem fetch_zero_fill_spec (t : Transport)
    (hlen : ∀ c regs, t.chunkRead c = some regs → regs.length = BMS_CHUNK_SIZE) :
    (∀ c, t.chunkRead c = none → chunkWords t c = List.replicate BMS_CHUNK_SIZE 0)
    ∧ (fetch_buffer t).length = 260
    ∧ ∀ bms_id, query_module t bms_id ≠ .error .ShortFrame := by
  have hchunk : ∀ c, (chunkWords t c).length = BMS_CHUNK_SIZE := by
    intro c
    unfold chunkWords
    cases hc : t.chunkRead c with
    | none => simp [BMS_CHUNK_SIZE]
    | some regs => exact hlen c regs hc
  have hbuf : (fetch_buffer t).length = 260 := by
    have : fetch_buffer t
        = (([] ++ chunkWords t 0 ++ chunkWords t 1) ++ chunkWords t 2) ++ chunkWords t 3 := rfl
    rw [this]
    simp only [List.length_append, List.length_nil, hchunk, BMS_CHUNK_SIZE]
  refine ⟨?_, hbuf, ?_⟩
  · intro c hc
    unfold chunkWords
    rw [hc]
  · intro bms_id
    unfold query_module
    cases t.writeOk with
    | false => simp
    | true =>
      cases hready : pollReady t.pollRead with
      | false => simp
      | true =>
        have : ¬ (fetch_buffer t).length < BMS_DATA_CHUNKS * BMS_CHUNK_SIZE := by
          rw [hbuf, BMS_DATA_CHUNKS, BMS_CHUNK_SIZE]
          omega
        simp [this]

/-- Concrete transport whose chunk reads all fail. -/
def tBadChunks : Transport :=
  { writeOk := true
    pollRead := fun _ => some RESP_BMS_READY
    chunkRead := fun _ => none }

theorem fetch_zero_fill_spec_witness :
    (fetch_buffer tBadChunks).length = 260
    ∧ query_module tBadChunks 1 ≠ .error .ShortFrame := by
  have h := fetch_zero_fill_spec tBadChunks
    (fun c regs hc => by simp [tBadChunks] at hc)
  exact ⟨h.2.1, h.2.2 1⟩

-- ── Outlier lemmas ──

lemma nextDistinct_least (xs : List Int) (m n : Int) (h : nextDistinct xs m = some n) :
    n ∈ xs ∧ m < n ∧ ∀ v ∈ xs, m < v → n ≤ v := by
  unfold nextDistinct at h
  have hmem : n ∈ xs.filter (fun v => m < v) :=
    List.min?_mem (fun a b => min_choice a b) h
  have hle : ∀ b ∈ xs.filter (fun v => m < v), n ≤ b :=
    (List.le_min?_iff (fun a b c => le_min_iff) h).1 (le_refl n)
  rw [List.mem_filter] at hmem
  refine ⟨hmem.1, by simpa using hmem.2, ?_⟩
  intro v hv hmv
  exact hle v (List.mem_filter.mpr ⟨hv, by simpa using hmv⟩)

lemma prevDistinct_greatest (xs : List Int) (m p : Int) (h : prevDistinct xs m = some p) :
    p ∈ xs ∧ p < m ∧ ∀ v ∈ xs, v < m → v ≤ p := by
  unfold prevDistinct at h
  have hmem : p ∈ xs.filter (fun v => v < m) :=
    List.max?_mem (fun a b => max_choice a b) h
  have hle : ∀ b ∈ xs.filter (fun v => v < m), b ≤ p :=
    (List.max?_le_iff (fun a b c => max_le_iff) h).1 (le_refl p)
  rw [List.mem_filter] at hmem
  refine ⟨hmem.1, by simpa using hmem.2, ?_⟩
  intro v hv hmv
  exact hle v (List.mem_filter.mpr ⟨hv, by simpa using hmv⟩)

/-- Claim C1: outlier detection flags the minimum value if and only if the
gap to the next-distinct value (the least strictly greater element) is at
least the fixed threshold, symmetrically flags the maximum against the
second-highest distinct value, the thresholds are 5 mV (voltage) and 2 °C
(temperature), and on `[3300, 3301, 3302, 3310]` the maximum is flagged
while the minimum is not. -/
theorem outlier_gap_spec :
    (∀ (thr : Int) (xs : List Int) (m : Int), xs.min? = some m →
      (minOutlier thr xs = true ↔ ∃ n, nextDistinct xs m = some n ∧ thr ≤ n - m))
    ∧ (∀ (thr : Int) (xs : List Int) (m : Int), xs.max? = some m →
      (maxOutlier thr xs = true ↔ ∃ p, prevDistinct xs m = some p ∧ thr ≤ m - p))
    ∧ (∀ (xs : List Int) (m n : Int), nextDistinct xs m = some n →
        n ∈ xs ∧ m < n ∧ ∀ v ∈ xs, m < v → n ≤ v)
    ∧ (∀ (xs : List Int) (m p : Int), prevDistinct xs m = some p →
        p ∈ xs ∧ p < m ∧ ∀ v ∈ xs, v < m → v ≤ p)
    ∧ VOLTAGE_OUTLIER_THRESHOLD = 5
    ∧ TEMP_OUTLIER_THRESHOLD = 2
    ∧ maxOutlier VOLTAGE_OUTLIER_THRESHOLD [3300, 3301, 3302, 3310] = true
    ∧ minOutlier VOLTAGE_OUTLIER_THRESHOLD [3300, 3301, 3302, 3310] = false := by
  refine ⟨?_, ?_, nextDistinct_least, prevDistinct_greatest, rfl, rfl, by decide, by decide⟩
  · intro thr xs m hm
    unfold minOutlier
    rw [hm]
    cases hn : nextDistinct xs m with
    | none => simp [hn]
    | some n => simp [hn]
  · intro thr xs m hm
    unfold maxOutlier
    rw [hm]
    cases hp : prevDistinct xs m with
    | none => simp [hp]
    | some p => simp [hp]

theorem outlier_gap_spec_witness :
    (minOutlier VOLTAGE_OUTLIER_THRESHOLD [3300, 3301, 3302, 3310] = true
      ↔ ∃ n, nextDistinct [3300, 3301, 3302, 3310] 3300 = some n
          ∧ VOLTAGE_OUTLIER_THRESHOLD ≤ n - 3300) :=
  outlier_gap_spec.1 VOLTAGE_OUTLIER_THRESHOLD [3300, 3301, 3302, 3310] 3300 (by decide)
